import Mathlib

/-!
Verification of the X12 EDI core of the moonlit claims system: a shallow
embedding of the tokenizer, the 837P generator, the 999/277/835 parsers and
the reconciliation engine, together with theorems settling the spec claims.

Conventions of the embedding:
* TypeScript strings are `String`, arrays are `List`, objects are structures.
* JavaScript numbers that the program obtains from `parseFloat`/`parseInt`
  are modelled as `ℚ`/`Int`; `NaN` (unparseable input) is modelled as `0`,
  which agrees with `NaN` on every comparison the program performs
  (`> 0`, `=== 0` is only reached on parseable amounts in the claims below).
* `x || y` on strings is `jsOr x y`; `x || null` is `strOrNone x`.
* A fallible TypeScript function returning `{success, data?, error?}` is
  modelled as an `Option` of the data (`none` = failure result).
-/

namespace Moonlit

/-- Claim statuses of the system (the closed TypeScript union `ClaimStatus`). -/
inductive ClaimStatus where
  | draft
  | submitted
  | acknowledged
  | accepted
  | rejected
  | pending
  | paid
  | denied
  | failed
deriving DecidableEq, Repr

/-- One tokenized EDI segment (interface `Segment` of the base parser). -/
structure Segment where
  id : String
  elements : List String
  raw : String
deriving DecidableEq, Repr

/-- Models `s || d` for TypeScript strings (empty string is falsy). -/
def jsOr (s d : String) : String := if s == "" then d else s

/-- Models `s || null` for TypeScript strings stored into nullable columns. -/
def strOrNone (s : String) : Option String := if s == "" then none else some s

/-- Splits a character list on a separator, like `String.prototype.split`
with a one-character separator (`''.split` gives `['']`, separators at the
ends give empty fragments). -/
def splitOnChar (sep : Char) : List Char → List (List Char)
  | [] => [[]]
  | c :: rest =>
    let r := splitOnChar sep rest
    if c == sep then [] :: r
    else (c :: r.headD []) :: r.tail

/-- `splitOnChar` packaged for strings. -/
def splitOnCharS (sep : Char) (s : String) : List String :=
  (splitOnChar sep s.data).map String.mk

/-- Models `String.prototype.trim` (on the whitespace characters appearing in
the system's EDI files). -/
def trimList (l : List Char) : List Char :=
  ((l.dropWhile Char.isWhitespace).reverse.dropWhile Char.isWhitespace).reverse

/-- `trimList` packaged for strings. -/
def trimStr (s : String) : String := String.mk (trimList s.data)

/-- Models `content.replace(/\r\n/g, '\n').replace(/\r/g, '\n')` in one pass:
each CRLF pair and each remaining CR becomes LF. -/
def normalizeNewlines : List Char → List Char
  | [] => []
  | '\r' :: '\n' :: rest => '\n' :: normalizeNewlines rest
  | '\r' :: rest => '\n' :: normalizeNewlines rest
  | c :: rest => c :: normalizeNewlines rest

/-- Models `String.prototype.startsWith`. -/
def startsWithStr (s pre : String) : Bool := pre.data.isPrefixOf s.data

/-- Numeric value of a list of decimal digit characters. -/
def digitsToNat (l : List Char) : Nat := l.foldl (fun a c => a * 10 + (c.toNat - 48)) 0

/-- Rational addition as the embedding's addition on amounts: `Rat.add` is
irreducible, so the kernel could not evaluate it; `ratAdd` is the same
operation (`ratAdd_eq_add`) written through the reducible `mkRat`. -/
def ratAdd (a b : ℚ) : ℚ :=
  mkRat (a.num * (b.den : Int) + b.num * (a.den : Int)) (a.den * b.den)

/-- Models JavaScript `parseFloat`: optional sign, integer digits, optional
fractional digits; the value is the exact decimal
`± (intDigits.fracDigits)`, built as a normalized fraction. Unparseable
input (`NaN` in JavaScript) is modelled as `0`; every comparison the program
performs on such a value (`> 0`) has the same truth value at `NaN` and `0`. -/
def parseFloatJS (s : String) : ℚ :=
  let t := trimList s.data
  let neg : Bool := match t with
    | '-' :: _ => true
    | _ => false
  let t1 := match t with
    | '-' :: r => r
    | '+' :: r => r
    | _ => t
  let intDs := t1.takeWhile Char.isDigit
  let rest1 := t1.drop intDs.length
  let fracDs := match rest1 with
    | '.' :: r => r.takeWhile Char.isDigit
    | _ => []
  if intDs.isEmpty && fracDs.isEmpty then 0
  else
    let mag : ℚ := mkRat (digitsToNat intDs * 10 ^ fracDs.length + digitsToNat fracDs)
      (10 ^ fracDs.length)
    if neg then -mag else mag

/-- Models JavaScript `parseInt` (base 10): optional sign then leading digits.
Unparseable input (`NaN`) is modelled as `0`; the program only compares these
counts with `0`, where `NaN` and `0` agree. -/
def parseIntJS (s : String) : Int :=
  let t := trimList s.data
  let sgn : Int := match t with
    | '-' :: _ => -1
    | _ => 1
  let t1 := match t with
    | '-' :: r => r
    | '+' :: r => r
    | _ => t
  let ds := t1.takeWhile Char.isDigit
  if ds.isEmpty then 0 else sgn * (digitsToNat ds : Int)

/-- Tokenizer `parseEDISegments`: normalize line endings, split on `~`, trim,
drop empty fragments, strip embedded line breaks (`replace(/\n/g, '')`),
split on `*`; the first token is the id, the rest are the elements. -/
def parseEDISegments (content : String) : List Segment :=
  let normalized := normalizeNewlines content.data
  let segmentStrings := ((splitOnChar '~' normalized).map trimList).filter
    (fun s => s.length > 0)
  segmentStrings.map (fun rawChars =>
    let cleanRaw := rawChars.filter (fun c => c != '\n')
    let parts := (splitOnChar '*' cleanRaw).map String.mk
    { id := parts.headD ""
      elements := parts.drop 1
      raw := String.mk cleanRaw })

/-- `findSegments`: all segments with a given id. -/
def findSegments (segments : List Segment) (id : String) : List Segment :=
  segments.filter (fun s => s.id == id)

/-- `findSegment`: the first segment with a given id. -/
def findSegment (segments : List Segment) (id : String) : Option Segment :=
  segments.find? (fun s => s.id == id)

/-- `getElement`: 0-indexed element access returning `""` for a missing
segment or a missing/empty element. -/
def getElement (segment : Option Segment) (index : Nat) : String :=
  match segment with
  | none => ""
  | some s => s.elements.getD index ""

/-- `getSubElement`: split an element on `:` and take the sub-element. -/
def getSubElement (element : String) (subIndex : Nat) : String :=
  if element == "" then ""
  else (splitOnCharS ':' element).getD subIndex ""

/-- `extractISAControlNumber`: ISA13, element index 12, trimmed. -/
def extractISAControlNumber (segments : List Segment) : String :=
  match findSegment segments "ISA" with
  | none => ""
  | some _ => trimStr (getElement (findSegment segments "ISA") 12)

/-- `extractGSControlNumber`: GS06, element index 5, trimmed. -/
def extractGSControlNumber (segments : List Segment) : String :=
  match findSegment segments "GS" with
  | none => ""
  | some _ => trimStr (getElement (findSegment segments "GS") 5)

/-- Status code descriptions for the 999 IK5 segment. -/
def IK5_STATUS_CODES : String → Option String
  | "A" => some "Accepted"
  | "E" => some "Accepted But Errors Were Noted"
  | "M" => some "Rejected, Message Authentication Code (MAC) Failed"
  | "P" => some "Partially Accepted, At Least One Transaction Set Was Rejected"
  | "R" => some "Rejected"
  | "W" => some "Rejected, Assurance Failed Validity Tests"
  | "X" => some "Rejected, Content After Decryption Could Not Be Analyzed"
  | _ => none

/-- Status code descriptions for the 999 AK9 segment. -/
def AK9_STATUS_CODES : String → Option String
  | "A" => some "Accepted"
  | "E" => some "Accepted, But Errors Were Noted"
  | "P" => some "Partially Accepted, At Least One Transaction Set Was Rejected"
  | "R" => some "Rejected"
  | _ => none

/-- Entry of the 277 status-category code table. -/
structure STCInfo where
  description : String
  claimStatus : ClaimStatus
deriving DecidableEq, Repr

/-- 277 status-category codes (STC01-1) and their internal claim status. -/
def STC_CATEGORY_CODES : String → Option STCInfo
  | "A0" => some ⟨"Acknowledgment/Forwarded", .acknowledged⟩
  | "A1" => some ⟨"Acknowledgment/Receipt", .acknowledged⟩
  | "A2" => some ⟨"Acknowledgment/Acceptance into adjudication", .accepted⟩
  | "A3" => some ⟨"Acknowledgment/Rejection", .rejected⟩
  | "A4" => some ⟨"Acknowledgment/Pending", .pending⟩
  | "A5" => some ⟨"Acknowledgment/Returned as Unprocessable", .rejected⟩
  | "A6" => some ⟨"Acknowledgment/Split", .pending⟩
  | "A7" => some ⟨"Acknowledgment/Rejected for Missing Information", .rejected⟩
  | "A8" => some ⟨"Acknowledgment/Rejected for Invalid Information", .rejected⟩
  | "D0" => some ⟨"Data Reporting Acknowledgment", .acknowledged⟩
  | "E0" => some ⟨"Response not Possible", .pending⟩
  | "E1" => some ⟨"Response not Possible, Claim/Encounter Not Found", .pending⟩
  | "E2" => some ⟨"Information Holder is Not Responding", .pending⟩
  | "E3" => some ⟨"Correction Required", .pending⟩
  | "E4" => some ⟨"Forwarded for Additional Review", .pending⟩
  | "F0" => some ⟨"Finalized/Adjudication Complete", .accepted⟩
  | "F1" => some ⟨"Finalized/Denial", .denied⟩
  | "F2" => some ⟨"Finalized/Paid", .paid⟩
  | "F3" => some ⟨"Finalized/Revised", .accepted⟩
  | "F4" => some ⟨"Finalized/Forwarded", .accepted⟩
  | "R0" => some ⟨"Request for Additional Information", .pending⟩
  | "R1" => some ⟨"Request Accepted", .accepted⟩
  | "R3" => some ⟨"Request Rejected", .rejected⟩
  | "R4" => some ⟨"Request Returned", .rejected⟩
  | "R5" => some ⟨"Requires Acknowledgment", .pending⟩
  | "RQ" => some ⟨"Requests Forwarded", .pending⟩
  | "WQ" => some ⟨"Request Not Processed", .pending⟩
  | _ => none

/-- Entry of the 835 CLP02 claim-status code table. -/
structure CLPInfo where
  description : String
  isPaid : Bool
deriving DecidableEq, Repr

/-- 835 CLP02 claim status codes. -/
def CLP_STATUS_CODES : String → Option CLPInfo
  | "1" => some ⟨"Processed as Primary", true⟩
  | "2" => some ⟨"Processed as Secondary", true⟩
  | "3" => some ⟨"Processed as Tertiary", true⟩
  | "4" => some ⟨"Denied", false⟩
  | "19" => some ⟨"Processed as Primary, Forwarded to Additional Payer", true⟩
  | "20" => some ⟨"Processed as Secondary, Forwarded to Additional Payer", true⟩
  | "21" => some ⟨"Processed as Tertiary, Forwarded to Additional Payer", true⟩
  | "22" => some ⟨"Reversal of Previous Payment", false⟩
  | "23" => some ⟨"Not Our Claim, Forwarded to Additional Payer", false⟩
  | "25" => some ⟨"Predetermination Pricing Only", false⟩
  | _ => none

/-- CAS group code descriptions of the 835 parser. -/
def CAS_GROUP_CODES : String → Option String
  | "CO" => some "Contractual Obligations"
  | "CR" => some "Corrections and Reversals"
  | "OA" => some "Other Adjustments"
  | "PI" => some "Payer Initiated Reductions"
  | "PR" => some "Patient Responsibility"
  | _ => none

/-- Result of repeatedly assigning a local variable inside the source's single
forward scan: the last matching segment wins. -/
def lastSome {α β : Type} (l : List α) (f : α → Option β) : Option β :=
  l.foldl (fun acc x => match f x with | some v => some v | none => acc) none

/-! ### 999 Functional Acknowledgment parser -/

/-- One AK2/IK5 transaction set response of a parsed 999. -/
structure TransactionSetResponse where
  transactionSetId : String
  controlNumber : String
  accepted : Bool
  statusCode : String
  statusDescription : String
deriving DecidableEq, Repr

/-- Parsed 999 functional acknowledgment (interface `Parsed999`). -/
structure Parsed999 where
  originalControlNumber : String
  isaControlNumber : String
  accepted : Bool
  statusCode : String
  statusDescription : String
  transactionSetResponses : List TransactionSetResponse
  errorCodes : Option (List String)
  includedTransactionCount : Int
  receivedTransactionCount : Int
  acceptedTransactionCount : Int
deriving DecidableEq, Repr

/-- `parseTransactionResponses`: for each AK2 segment, scan forward for the
first IK5 before the next AK2 or the AK9 trailer, and derive the
per-transaction acceptance from its first element. -/
def parseTransactionResponses : List Segment → List TransactionSetResponse
  | [] => []
  | s :: rest =>
    if s.id == "AK2" then
      let scanSegs := rest.takeWhile (fun t => t.id != "AK2" && t.id != "AK9")
      let ik5 := scanSegs.find? (fun t => t.id == "IK5")
      let ik5StatusCode := match ik5 with
        | some seg => getElement (some seg) 0
        | none => ""
      let ik5StatusDescription := match ik5 with
        | some _ => (IK5_STATUS_CODES ik5StatusCode).getD ("Unknown: " ++ ik5StatusCode)
        | none => ""
      { transactionSetId := getElement (some s) 0
        controlNumber := getElement (some s) 1
        accepted := ik5StatusCode == "A" || ik5StatusCode == "E"
        statusCode := ik5StatusCode
        statusDescription := ik5StatusDescription } :: parseTransactionResponses rest
    else parseTransactionResponses rest

/-- `collectErrorCodes`: error strings from IK3 (segment errors) and IK4
(element errors). -/
def collectErrorCodes (segments : List Segment) : List String :=
  let ik3errs := (findSegments segments "IK3").filterMap (fun ik3 =>
    let segmentId := getElement (some ik3) 0
    let segmentPosition := getElement (some ik3) 1
    let errorCode := getElement (some ik3) 3
    if errorCode != "" then
      some ("Segment " ++ segmentId ++ " at position " ++ segmentPosition ++ ": Error " ++ errorCode)
    else none)
  let ik4errs := (findSegments segments "IK4").filterMap (fun ik4 =>
    let elementPosition := getElement (some ik4) 0
    let elementReference := getElement (some ik4) 1
    let errorCode := getElement (some ik4) 2
    if errorCode != "" then
      some ("Element " ++ elementPosition ++ " (" ++ elementReference ++ "): Error " ++ errorCode)
    else none)
  ik3errs ++ ik4errs

/-- `parse999`: `none` models the failure result (zero segments); `some`
models the success result carrying the parsed acknowledgment. -/
def parse999 (content : String) : Option Parsed999 :=
  let segments := parseEDISegments content
  if segments.isEmpty then none
  else
    let originalControlNumber := extractISAControlNumber segments
    let originalGSControlNumber := extractGSControlNumber segments
    let ak1 := findSegment segments "AK1"
    let ak1GroupControlNumber := getElement ak1 1
    let ak9 := findSegment segments "AK9"
    let ak9StatusCode := getElement ak9 0
    let ak9IncludedCount := parseIntJS (jsOr (getElement ak9 1) "0")
    let ak9ReceivedCount := parseIntJS (jsOr (getElement ak9 2) "0")
    let ak9AcceptedCount := parseIntJS (jsOr (getElement ak9 3) "0")
    let isAccepted := ak9StatusCode == "A" || ak9StatusCode == "E"
    let statusDescription := (AK9_STATUS_CODES ak9StatusCode).getD ("Unknown status: " ++ ak9StatusCode)
    let transactionResponses := parseTransactionResponses segments
    let errorCodes := collectErrorCodes segments
    some
      { originalControlNumber := jsOr ak1GroupControlNumber originalGSControlNumber
        isaControlNumber := originalControlNumber
        accepted := isAccepted
        statusCode := ak9StatusCode
        statusDescription := statusDescription
        transactionSetResponses := transactionResponses
        errorCodes := if errorCodes.length > 0 then some errorCodes else none
        includedTransactionCount := ak9IncludedCount
        receivedTransactionCount := ak9ReceivedCount
        acceptedTransactionCount := ak9AcceptedCount }

/-- `is999Accepted`: whether a 999 indicates successful receipt. -/
def is999Accepted (parsed : Parsed999) : Bool :=
  parsed.accepted && decide (0 < parsed.acceptedTransactionCount)

/-! ### 277 Claim Status Response parser -/

/-- One claim status entry of a parsed 277 (interface `ClaimStatusInfo`). -/
structure ClaimStatusInfo where
  controlNumber : String
  payerClaimNumber : Option String
  statusCategoryCode : String
  statusCode : String
  statusDescription : String
  claimStatus : ClaimStatus
  effectiveDate : Option String
  totalChargeAmount : Option ℚ
  patientName : Option String
  serviceDate : Option String
deriving DecidableEq, Repr

/-- Fields collected by the forward scan from one TRN to the next: the
source's single loop is split into one `lastSome` pass per assigned local
(the last matching segment wins in both formulations). -/
def mkClaimStatus (controlNumber : String) (body : List Segment) : ClaimStatusInfo :=
  let payerClaimNumber := lastSome body (fun seg =>
    if seg.id == "REF" && (getElement (some seg) 0 == "1K" || getElement (some seg) 0 == "D9") then
      some (getElement (some seg) 1)
    else none)
  let stc01 := lastSome body (fun seg =>
    if seg.id == "STC" then some (getElement (some seg) 0) else none)
  let statusCategoryCode := (stc01.map (fun e => getSubElement e 0)).getD ""
  let statusCode := (stc01.map (fun e => getSubElement e 1)).getD ""
  let effectiveDate := lastSome body (fun seg =>
    if seg.id == "STC" then some (getElement (some seg) 1) else none)
  let totalChargeAmount := lastSome body (fun seg =>
    if seg.id == "AMT" && (getElement (some seg) 0 == "YU" || getElement (some seg) 0 == "T3") then
      some (parseFloatJS (jsOr (getElement (some seg) 1) "0"))
    else none)
  let patientName := lastSome body (fun seg =>
    if seg.id == "NM1" && getElement (some seg) 0 == "QC" then
      some (trimStr (getElement (some seg) 3 ++ " " ++ getElement (some seg) 2))
    else none)
  let serviceDate := lastSome body (fun seg =>
    if seg.id == "DTP" && getElement (some seg) 0 == "472" then
      some (getElement (some seg) 2)
    else none)
  let stcInfo := STC_CATEGORY_CODES statusCategoryCode
  { controlNumber := controlNumber
    payerClaimNumber := payerClaimNumber
    statusCategoryCode := statusCategoryCode
    statusCode := statusCode
    statusDescription := (stcInfo.map (fun i => i.description)).getD ("Status " ++ statusCategoryCode)
    claimStatus := (stcInfo.map (fun i => i.claimStatus)).getD .pending
    effectiveDate := effectiveDate
    totalChargeAmount := totalChargeAmount
    patientName := patientName
    serviceDate := serviceDate }

/-- `parseClaimStatuses`: one entry per TRN segment with a nonempty trace
number (element 1); each TRN's fields come from the segments up to the next
TRN (or the end of the file). -/
def parseClaimStatuses : List Segment → List ClaimStatusInfo
  | [] => []
  | s :: rest =>
    if s.id == "TRN" then
      if getElement (some s) 1 == "" then parseClaimStatuses rest
      else mkClaimStatus (getElement (some s) 1) (rest.takeWhile (fun t => t.id != "TRN"))
            :: parseClaimStatuses rest
    else parseClaimStatuses rest

/-- Parsed 277 response (interface `Parsed277`). -/
structure Parsed277 where
  isaControlNumber : String
  claimStatuses : List ClaimStatusInfo
  hasRejections : Bool
  totalClaims : Nat
deriving DecidableEq, Repr

/-- `parse277`: `none` models the failure result (zero segments). -/
def parse277 (content : String) : Option Parsed277 :=
  let segments := parseEDISegments content
  if segments.isEmpty then none
  else
    let isaControlNumber := extractISAControlNumber segments
    let claimStatuses := parseClaimStatuses segments
    let hasRejections := claimStatuses.any (fun cs =>
      cs.claimStatus == .rejected
        || startsWithStr cs.statusCategoryCode "A3"
        || startsWithStr cs.statusCategoryCode "A5"
        || startsWithStr cs.statusCategoryCode "A7"
        || startsWithStr cs.statusCategoryCode "A8")
    some
      { isaControlNumber := isaControlNumber
        claimStatuses := claimStatuses
        hasRejections := hasRejections
        totalClaims := claimStatuses.length }

/-! ### 835 Electronic Remittance Advice parser -/

/-- One parsed CAS adjustment (interface `AdjustmentInfo`). -/
structure AdjustmentInfo where
  groupCode : String
  groupDescription : String
  reasonCode : String
  amount : ℚ
deriving DecidableEq, Repr

/-- One parsed SVC service line payment (interface `ServiceLinePayment`). -/
structure ServiceLinePayment where
  procedureCode : String
  modifier : Option String
  chargeAmount : ℚ
  paidAmount : ℚ
  units : Int
  adjustments : List AdjustmentInfo
deriving DecidableEq, Repr

/-- One parsed CLP claim payment (interface `ClaimPaymentInfo`). -/
structure ClaimPaymentInfo where
  patientControlNumber : String
  payerClaimNumber : String
  statusCode : String
  statusDescription : String
  chargeAmount : ℚ
  paidAmount : ℚ
  patientResponsibility : ℚ
  adjustments : List AdjustmentInfo
  serviceLines : List ServiceLinePayment
  patientName : Option String
  serviceDate : Option String
  claimStatus : ClaimStatus
deriving DecidableEq, Repr

/-- `parseAdjustment`: a CAS segment's group code, reason code and amount;
`none` when the group code is empty. -/
def parseAdjustment (cas : Segment) : Option AdjustmentInfo :=
  let groupCode := getElement (some cas) 0
  let reasonCode := getElement (some cas) 1
  let amount := parseFloatJS (jsOr (getElement (some cas) 2) "0")
  if groupCode == "" then none
  else some
    { groupCode := groupCode
      groupDescription := (CAS_GROUP_CODES groupCode).getD groupCode
      reasonCode := reasonCode
      amount := amount }

/-- Adjustment collected from a scanned segment: the claim and service-line
scans push `parseAdjustment seg` for every segment whose id is `CAS`. -/
def casAdjustment (seg : Segment) : Option AdjustmentInfo :=
  if seg.id == "CAS" then parseAdjustment seg else none

/-- `parseServiceLine`: an SVC segment's payment data; the source scans the
segments after the SVC, stopping at the next SVC or CLP, and collects the CAS
adjustments seen. -/
def parseServiceLine (svc : Segment) (rest : List Segment) : ServiceLinePayment :=
  let compositeProcedure := getElement (some svc) 0
  let procedureParts := splitOnCharS ':' compositeProcedure
  let procedureCode := jsOr (procedureParts.getD 1 "") (procedureParts.getD 0 "")
  let modifier := procedureParts.get? 2
  let chargeAmount := parseFloatJS (jsOr (getElement (some svc) 1) "0")
  let paidAmount := parseFloatJS (jsOr (getElement (some svc) 2) "0")
  let units := parseIntJS (jsOr (getElement (some svc) 4) "1")
  let adjustments := (rest.takeWhile (fun t => t.id != "SVC" && t.id != "CLP")).filterMap casAdjustment
  { procedureCode := procedureCode
    modifier := modifier
    chargeAmount := chargeAmount
    paidAmount := paidAmount
    units := units
    adjustments := adjustments }

/-- Service lines found by the claim scan: one `parseServiceLine` per SVC
segment; after building a line the scan continues with the very next segment
(so segments consumed by a service line are scanned again at claim level). -/
def collectServiceLines : List Segment → List ServiceLinePayment
  | [] => []
  | s :: rest =>
    if s.id == "SVC" then parseServiceLine s rest :: collectServiceLines rest
    else collectServiceLines rest

/-- Claim payment built from a CLP segment and the claim's body: the segments
between the CLP and the next CLP (or the end of the file). The source's
single forward scan is split into one pass per collected field; the claim's
adjustment list collects every CAS in the body, including CAS segments that
follow an SVC. -/
def mkClaimPayment (clp : Segment) (body : List Segment) : ClaimPaymentInfo :=
  let patientControlNumber := getElement (some clp) 0
  let statusCode := getElement (some clp) 1
  let chargeAmount := parseFloatJS (jsOr (getElement (some clp) 2) "0")
  let paidAmount := parseFloatJS (jsOr (getElement (some clp) 3) "0")
  let patientResponsibility := parseFloatJS (jsOr (getElement (some clp) 4) "0")
  let payerClaimNumber := getElement (some clp) 6
  let statusInfo := CLP_STATUS_CODES statusCode
  let statusDescription := (statusInfo.map (fun i => i.description)).getD ("Status " ++ statusCode)
  let claimStatus : ClaimStatus := match statusInfo with
    | some i => if i.isPaid then .paid else .denied
    | none => .denied
  let patientName := lastSome body (fun seg =>
    if seg.id == "NM1" && getElement (some seg) 0 == "QC" then
      some (trimStr (getElement (some seg) 3 ++ " " ++ getElement (some seg) 2))
    else none)
  let serviceDate := lastSome body (fun seg =>
    if seg.id == "DTM" && (getElement (some seg) 0 == "232" || getElement (some seg) 0 == "233") then
      some (getElement (some seg) 1)
    else none)
  { patientControlNumber := patientControlNumber
    payerClaimNumber := payerClaimNumber
    statusCode := statusCode
    statusDescription := statusDescription
    chargeAmount := chargeAmount
    paidAmount := paidAmount
    patientResponsibility := patientResponsibility
    adjustments := body.filterMap casAdjustment
    serviceLines := collectServiceLines body
    patientName := patientName
    serviceDate := serviceDate
    claimStatus := claimStatus }

/-- `parseClaimPayments`: one entry per CLP segment; each CLP's associated
segments are those up to the next CLP (or the end of the file). -/
def parseClaimPayments : List Segment → List ClaimPaymentInfo
  | [] => []
  | s :: rest =>
    if s.id == "CLP" then
      mkClaimPayment s (rest.takeWhile (fun t => t.id != "CLP")) :: parseClaimPayments rest
    else parseClaimPayments rest

/-- One provider-level adjustment parsed from a PLB segment. -/
structure ProviderAdjustment where
  reasonCode : String
  amount : ℚ
deriving DecidableEq, Repr

/-- Reason/amount pairs of one PLB segment, starting at element index 2. -/
def plbPairs : List String → List ProviderAdjustment
  | [] => []
  | [r] => if r != "" then [{ reasonCode := r, amount := parseFloatJS "0" }] else []
  | r :: a :: rest =>
    (if r != "" then [{ reasonCode := r, amount := parseFloatJS (jsOr a "0") }] else [])
      ++ plbPairs rest

/-- `parseProviderAdjustments`: repeating reason/amount pairs of all PLB
segments. -/
def parseProviderAdjustments (segments : List Segment) : List ProviderAdjustment :=
  ((findSegments segments "PLB").map (fun plb => plbPairs (plb.elements.drop 2))).flatten

/-- Parsed 835 remittance advice (interface `Parsed835`). -/
structure Parsed835 where
  isaControlNumber : String
  checkNumber : String
  payerIdentifier : String
  payerName : String
  payeeName : String
  paymentDate : String
  paymentMethodCode : String
  totalPaymentAmount : ℚ
  totalCharges : ℚ
  totalPaid : ℚ
  totalPatientResponsibility : ℚ
  claimPayments : List ClaimPaymentInfo
  providerAdjustments : List ProviderAdjustment
  claimCount : Nat
deriving DecidableEq, Repr

/-- `parse835`: `none` models the failure result (zero segments). -/
def parse835 (content : String) : Option Parsed835 :=
  let segments := parseEDISegments content
  if segments.isEmpty then none
  else
    let isaControlNumber := extractISAControlNumber segments
    let bpr := findSegment segments "BPR"
    let totalPaymentAmount := parseFloatJS (jsOr (getElement bpr 1) "0")
    let paymentMethodCode := getElement bpr 3
    let paymentDate := getElement bpr 15
    let trn := findSegment segments "TRN"
    let checkNumber := getElement trn 1
    let payerIdentifier := getElement trn 2
    let payerName := (lastSome segments (fun s =>
      if s.id == "N1" && getElement (some s) 0 == "PR" then some (getElement (some s) 1)
      else none)).getD ""
    let payeeName := (lastSome segments (fun s =>
      if s.id == "N1" && getElement (some s) 0 == "PE" then some (getElement (some s) 1)
      else none)).getD ""
    let claimPayments := parseClaimPayments segments
    let totalCharges := claimPayments.foldl (fun sum cp => ratAdd sum cp.chargeAmount) 0
    let totalPaid := claimPayments.foldl (fun sum cp => ratAdd sum cp.paidAmount) 0
    let totalPatientResponsibility :=
      claimPayments.foldl (fun sum cp => ratAdd sum cp.patientResponsibility) 0
    let providerAdjustments := parseProviderAdjustments segments
    some
      { isaControlNumber := isaControlNumber
        checkNumber := checkNumber
        payerIdentifier := payerIdentifier
        payerName := payerName
        payeeName := payeeName
        paymentDate := paymentDate
        paymentMethodCode := paymentMethodCode
        totalPaymentAmount := totalPaymentAmount
        totalCharges := totalCharges
        totalPaid := totalPaid
        totalPatientResponsibility := totalPatientResponsibility
        claimPayments := claimPayments
        providerAdjustments := providerAdjustments
        claimCount := claimPayments.length }

/-- `findClaimPayment`: payment entry for a specific control number. -/
def findClaimPayment (parsed : Parsed835) (controlNumber : String) : Option ClaimPaymentInfo :=
  parsed.claimPayments.find? (fun cp => cp.patientControlNumber == controlNumber)

/-- `getPaidClaims`: entries with a positive paid amount. -/
def getPaidClaims (parsed : Parsed835) : List ClaimPaymentInfo :=
  parsed.claimPayments.filter (fun cp => decide (0 < cp.paidAmount))

/-- `getDeniedClaims`: entries with zero paid amount and positive charge. -/
def getDeniedClaims (parsed : Parsed835) : List ClaimPaymentInfo :=
  parsed.claimPayments.filter (fun cp =>
    decide (cp.paidAmount = 0) && decide (0 < cp.chargeAmount))

/-- `getTotalPatientResponsibility`: sum across all claim payments. -/
def getTotalPatientResponsibility (parsed : Parsed835) : ℚ :=
  parsed.claimPayments.foldl (fun sum cp => ratAdd sum cp.patientResponsibility) 0

/-! ### 837P generator -/

/-- Diagnosis entry of the generator's input (`EDIClaimData.diagnosisCodes`). -/
structure EDIDiagnosisCode where
  code : String
  isPrimary : Bool
deriving DecidableEq, Repr

/-- Service line of the generator's input (`EDIClaimData.serviceLines`). -/
structure EDIServiceLine where
  dos : String
  cpt : String
  modifier : Option String
  units : Nat
  charge : ℚ
  diagnosisPointers : List Nat
deriving DecidableEq, Repr

/-- Street address of the generator's input. -/
structure EDIAddress where
  street : String
  city : String
  state : String
  zip : String
deriving DecidableEq, Repr

/-- Input of the 837P generator (interface `EDIClaimData`). -/
structure EDIClaimData where
  patientFirstName : String
  patientLastName : String
  patientDob : String
  patientGender : String
  patientAddress : EDIAddress
  payerId : String
  memberId : String
  groupNumber : Option String
  subscriberName : String
  subscriberDob : String
  subscriberRelationship : String
  diagnosisCodes : List EDIDiagnosisCode
  serviceLines : List EDIServiceLine
  renderingNpi : String
  billingNpi : String
  billingTin : String
  billingName : String
  billingAddress : EDIAddress
  controlNumber : String
deriving DecidableEq, Repr

/-- The current date/time read by the generator (`new Date()`), as the
calendar fields the source formats. -/
structure JsDate where
  year : Nat
  month : Nat
  day : Nat
  hours : Nat
  minutes : Nat
  seconds : Nat
deriving DecidableEq, Repr

/-- Two-digit zero padding (`toString().padStart(2, '0')`). -/
def padStart2 (n : Nat) : String :=
  if n < 10 then "0" ++ toString n else toString n

/-- `padRight`: pad with spaces then truncate to the given length. -/
def padRight (str : String) (length : Nat) : String :=
  String.mk ((str.data ++ List.replicate length ' ').take length)

/-- `padLeft`: prepend the pad character then keep the last `length` chars
(`slice(-length)`). -/
def padLeft (str : String) (length : Nat) (c : Char) : String :=
  let t := List.replicate length c ++ str.data
  String.mk (t.drop (t.length - length))

/-- `formatDate` with format `YYMMDD` (last two year digits). -/
def formatDateYYMMDD (d : JsDate) : String :=
  let y := (toString d.year).data
  String.mk (y.drop (y.length - 2)) ++ padStart2 d.month ++ padStart2 d.day

/-- `formatDate` with format `YYYYMMDD`. -/
def formatDateYYYYMMDD (d : JsDate) : String :=
  toString d.year ++ padStart2 d.month ++ padStart2 d.day

/-- `formatTime` with format `HHMM`. -/
def formatTimeHHMM (d : JsDate) : String :=
  padStart2 d.hours ++ padStart2 d.minutes

/-- `formatTime` with format `HHMMSS`. -/
def formatTimeHHMMSS (d : JsDate) : String :=
  padStart2 d.hours ++ padStart2 d.minutes ++ padStart2 d.seconds

/-- `getRelationshipCode`: subscriber relationship to SBR02 code. -/
def getRelationshipCode (rel : String) : String :=
  match rel with
  | "self" => "18"
  | "spouse" => "01"
  | "child" => "19"
  | "other" => "G8"
  | _ => "18"

/-- Models `Number.prototype.toFixed(2)`: the amount in rounded hundredths,
rendered with two fraction digits. The cent count is `⌊100·q + 1/2⌋`
computed on the fraction's parts, which agrees with `toFixed` on the
nonnegative exact decimal amounts of this development. -/
def toFixed2 (q : ℚ) : String :=
  let n : Int := (200 * q.num + (q.den : Int)).fdiv (2 * (q.den : Int))
  let m : Nat := n.natAbs
  (if n < 0 then "-" else "") ++ toString (m / 100) ++ "." ++ padStart2 (m % 100)

/-- Models JavaScript `String.replace` with a one-character string pattern:
only the first occurrence is replaced. -/
def replaceFirst (s : String) (pat : Char) (sub : String) : String :=
  match splitOnCharS pat s with
  | [] => s
  | [x] => x
  | x :: y :: rest => x ++ sub ++ String.intercalate (String.mk [pat]) (y :: rest)

/-- Models the in-place stable sort
`diagnosisCodes.sort((a, b) => (b.isPrimary ? 1 : 0) - (a.isPrimary ? 1 : 0))`:
a stable sort on a boolean key keeps the primaries (in order) before the
non-primaries (in order). -/
def sortPrimaryFirst (l : List EDIDiagnosisCode) : List EDIDiagnosisCode :=
  l.filter (fun d => d.isPrimary) ++ l.filter (fun d => !d.isPrimary)

/-- `buildX12_837P`: builds the 837P text from the claim data, the sender id
(`process.env.MOONLIT_SENDER_ID || 'MOONLIT'`) and the current date/time.
Returns the generated text together with the claim data as it stands after
the call: `Array.prototype.sort` mutates `diagnosisCodes` in place, so the
caller's diagnosis list is reordered primaries-first by the call. -/
def buildX12_837P (senderId : String) (now : JsDate) (data : EDIClaimData) :
    String × EDIClaimData :=
  let dateYYMMDD := formatDateYYMMDD now
  let dateYYYYMMDD := formatDateYYYYMMDD now
  let timeHHMM := formatTimeHHMM now
  let timeHHMMSS := formatTimeHHMMSS now
  let isa := "ISA*00*          *00*          *ZZ*" ++ padRight senderId 15
    ++ "*ZZ*" ++ padRight "OFFALLY" 15 ++ "*" ++ dateYYMMDD ++ "*" ++ timeHHMM
    ++ "*^*00501*" ++ padLeft data.controlNumber 9 '0' ++ "*0*P*:~"
  let gs := "GS*HC*" ++ senderId ++ "*OFFALLY*" ++ dateYYYYMMDD ++ "*" ++ timeHHMM
    ++ "*" ++ data.controlNumber ++ "*X*005010X222A1~"
  let st := "ST*837*0001*005010X222A1~"
  let bht := "BHT*0019*00*" ++ data.controlNumber ++ "*" ++ dateYYYYMMDD ++ "*"
    ++ timeHHMMSS ++ "*CH~"
  let nm1Submitter := "NM1*41*2*" ++ data.billingName ++ "*****46*" ++ data.billingNpi ++ "~"
  let per := "PER*IC*BILLING*TE*8015550100~"
  let nm1Receiver := "NM1*40*2*OFFICE ALLY*****46*OFFALLY~"
  let hl1 := "HL*1**20*1~"
  let prvBilling := "PRV*BI*PXC*207Q00000X~"
  let nm1Billing := "NM1*85*2*" ++ data.billingName ++ "*****XX*" ++ data.billingNpi ++ "~"
  let n3Billing := "N3*" ++ data.billingAddress.street ++ "~"
  let n4Billing := "N4*" ++ data.billingAddress.city ++ "*" ++ data.billingAddress.state
    ++ "*" ++ data.billingAddress.zip ++ "~"
  let refEi := "REF*EI*" ++ data.billingTin ++ "~"
  let isPatientSubscriber := data.subscriberRelationship == "self"
  let hl2 := "HL*2*1*22*" ++ (if isPatientSubscriber then "0" else "1") ++ "~"
  let sbrRelCode := getRelationshipCode data.subscriberRelationship
  let sbr := "SBR*P*" ++ sbrRelCode ++ "*" ++ data.groupNumber.getD "" ++ "******CI~"
  let subscriberParts := splitOnCharS ' ' data.subscriberName
  let subLast := if subscriberParts.length > 1 then subscriberParts.getLastD ""
    else subscriberParts.headD ""
  let subFirst := if subscriberParts.length > 1 then
    String.intercalate " " subscriberParts.dropLast else ""
  let nm1Subscriber := "NM1*IL*1*" ++ subLast ++ "*" ++ subFirst ++ "****MI*"
    ++ data.memberId ++ "~"
  let n3Patient := "N3*" ++ data.patientAddress.street ++ "~"
  let n4Patient := "N4*" ++ data.patientAddress.city ++ "*" ++ data.patientAddress.state
    ++ "*" ++ data.patientAddress.zip ++ "~"
  let dmg := "DMG*D8*" ++ data.patientDob ++ "*" ++ data.patientGender ++ "~"
  let nm1Payer := "NM1*PR*2*" ++ data.payerId ++ "*****PI*" ++ data.payerId ++ "~"
  let hl3 := "HL*3*2*23*0~"
  let patSeg := "PAT*" ++ sbrRelCode ++ "~"
  let nm1Patient := "NM1*QC*1*" ++ data.patientLastName ++ "*" ++ data.patientFirstName ++ "~"
  let totalCharge := data.serviceLines.foldl (fun sum line => ratAdd sum line.charge) 0
  let pos := "11"
  let clm := "CLM*" ++ data.controlNumber ++ "*" ++ toFixed2 totalCharge ++ "***"
    ++ pos ++ ":B:1*Y*A*Y*Y~"
  let sortedDiagnoses := sortPrimaryFirst data.diagnosisCodes
  let diagCodes := String.intercalate "*" (sortedDiagnoses.enum.map (fun p =>
    (if p.1 == 0 then "ABK" else "ABF") ++ ":" ++ replaceFirst p.2.code '.' ""))
  let hi := "HI*" ++ diagCodes ++ "~"
  let nm1Rendering := "NM1*82*1******XX*" ++ data.renderingNpi ++ "~"
  let prvRendering := "PRV*PE*PXC*207Q00000X~"
  let lineSegments := (data.serviceLines.enum.map (fun p =>
    let line := p.2
    let lineNum := p.1 + 1
    let diagPointers := String.intercalate ":" (line.diagnosisPointers.map toString)
    let modifier := match line.modifier with
      | some m => if m == "" then "" else ":" ++ m
      | none => ""
    [ "LX*" ++ toString lineNum ++ "~",
      "SV1*HC:" ++ line.cpt ++ modifier ++ "*" ++ toFixed2 line.charge ++ "*UN*"
        ++ toString line.units ++ "***" ++ diagPointers ++ "~",
      "DTP*472*D8*" ++ line.dos ++ "~" ])).flatten
  let preTrailer : List String :=
    [isa, gs, st, bht, nm1Submitter, per, nm1Receiver, hl1, prvBilling, nm1Billing,
     n3Billing, n4Billing, refEi, hl2, sbr, nm1Subscriber]
    ++ (if isPatientSubscriber then [n3Patient, n4Patient, dmg] else [])
    ++ [nm1Payer]
    ++ (if isPatientSubscriber then [] else [hl3, patSeg, nm1Patient, n3Patient, n4Patient, dmg])
    ++ [clm, hi, nm1Rendering, prvRendering]
    ++ lineSegments
  let segmentCount := preTrailer.length + 1
  let segments := preTrailer
    ++ [ "SE*" ++ toString segmentCount ++ "*0001~",
         "GE*1*" ++ data.controlNumber ++ "~",
         "IEA*1*" ++ padLeft data.controlNumber 9 '0' ++ "~" ]
  (String.intercalate "\n" segments,
    { data with diagnosisCodes := sortedDiagnoses })

/-! ### Reconciliation engine

The claim store is modelled as a list of claim rows plus an append-only list
of status events. A store `update ... eq('id', claimId)` is a map over the
rows touching those with the given id; possible store failures are modelled
by two oracles: `updOk claimId` (does the row update succeed) and
`insOk claimId` (does the status-event insert succeed). -/

/-- The columns of a `claims` row that the engine reads or writes. -/
structure ClaimRow where
  id : String
  status : ClaimStatus
  control_number : Option String
  payer_claim_number : Option String
  acknowledgment_date : Option String := none
  accepted_date : Option String := none
  rejected_date : Option String := none
  paid_date : Option String := none
  paid_amount : Option ℚ := none
  rejection_reason : Option String := none
  rejection_codes : Option (List String) := none
deriving DecidableEq, Repr

/-- Source tag of a claim status event. -/
inductive EventSource where
  | submission
  | s999
  | s277
  | s835
  | manual
deriving DecidableEq, Repr

/-- One `claim_status_events` row as inserted by `recordStatusEvent`. -/
structure StatusEventRow where
  claim_id : String
  response_file_id : String
  previous_status : ClaimStatus
  new_status : ClaimStatus
  source : EventSource
  response_code : Option String
  response_description : Option String
  payment_amount : Option ℚ
deriving DecidableEq, Repr

/-- The claim store. -/
structure Db where
  claims : List ClaimRow
  events : List StatusEventRow
deriving DecidableEq, Repr

/-- A store row update by claim id. -/
def updateById (claims : List ClaimRow) (claimId : String) (f : ClaimRow → ClaimRow) :
    List ClaimRow :=
  claims.map (fun r => if r.id == claimId then f r else r)

/-- `recordStatusEvent`: inserts one status event; an insert failure is
caught and only logged by the source, so the store is returned unchanged and
no error escapes. -/
def recordStatusEvent (insOk : Bool) (db : Db) (ev : StatusEventRow) : Db :=
  if insOk then { db with events := db.events ++ [ev] } else db

/-- Models `event.paymentAmount || null`: zero and absent both store null. -/
def amtOrNone (a : Option ℚ) : Option ℚ :=
  match a with
  | some v => if v = 0 then none else some v
  | none => none

/-- The per-file processing result (interface `ProcessResult`). -/
structure ProcessResult where
  success : Bool
  claimsMatched : Nat
  claimsUpdated : Nat
  error : Option String
deriving DecidableEq, Repr

/-- One iteration of the engine's per-claim loop: if `gate` passes, update
the row by id, count it as updated, and record one status event built from
the matched claim's snapshot; a failed event insert is swallowed by
`recordStatusEvent`. -/
def claimStep (gate : ClaimRow → Bool) (upd : ClaimRow → ClaimRow)
    (mkEv : ClaimRow → StatusEventRow) (insOk : String → Bool)
    (acc : Db × Nat) (c : ClaimRow) : Db × Nat :=
  if gate c then
    let db2 := { acc.1 with claims := updateById acc.1.claims c.id upd }
    let db3 := recordStatusEvent (insOk c.id) db2 (mkEv c)
    (db3, acc.2 + 1)
  else acc

/-- The shared shape of the engine's per-claim loops: `claimStep` applied to
each matched claim in order. -/
def claimFold (gate : ClaimRow → Bool) (upd : ClaimRow → ClaimRow)
    (mkEv : ClaimRow → StatusEventRow) (insOk : String → Bool)
    (matched : List ClaimRow) (db : Db) : Db × Nat :=
  matched.foldl (claimStep gate upd mkEv insOk) (db, 0)

/-- The status a 999 drives a matched claim to. -/
def parsed999NewStatus (parsed : Parsed999) : ClaimStatus :=
  if parsed.accepted then .acknowledged else .rejected

/-- The 999 row update: status, acknowledgment date, and (on rejection) the
status description and collected error codes. -/
def apply999Row (parsed : Parsed999) (now : String) (r : ClaimRow) : ClaimRow :=
  { r with
    status := parsed999NewStatus parsed
    acknowledgment_date := some now
    rejection_reason := if parsed.accepted then none else some parsed.statusDescription
    rejection_codes := parsed.errorCodes }

/-- The 999 transition gate: only a `submitted` claim, or an `acknowledged`
claim when the 999 is negative, is updated. -/
def gate999 (parsed : Parsed999) (r : ClaimRow) : Bool :=
  r.status == .submitted
    || (r.status == .acknowledged && parsed999NewStatus parsed == .rejected)

/-- `process999File` (after a successful parse): match claims by the 999's
original control number and apply the gated acknowledged/rejected
transition. -/
def process999File (updOk insOk : String → Bool) (now fileId : String)
    (parsed : Parsed999) (db : Db) : Db × ProcessResult :=
  let controlNumber := parsed.originalControlNumber
  if controlNumber == "" then
    (db, { success := true, claimsMatched := 0, claimsUpdated := 0, error := none })
  else
    let matched := db.claims.filter (fun r => r.control_number == some controlNumber)
    let folded := claimFold
      (fun c => gate999 parsed c && updOk c.id)
      (apply999Row parsed now)
      (fun c =>
        { claim_id := c.id
          response_file_id := fileId
          previous_status := c.status
          new_status := parsed999NewStatus parsed
          source := .s999
          response_code := strOrNone parsed.statusCode
          response_description := strOrNone parsed.statusDescription
          payment_amount := none })
      insOk matched db
    (folded.1,
      { success := true, claimsMatched := matched.length, claimsUpdated := folded.2,
        error := none })

/-- Truthiness of an optional string field. -/
def optTruthy (s : Option String) : Bool :=
  match s with
  | some v => v != ""
  | none => false

/-- The 277 row update: unconditional status, the payer claim number when
present, and the accepted/rejected dates and rejection fields per the new
status. -/
def apply277Row (entry : ClaimStatusInfo) (now : String) (r : ClaimRow) : ClaimRow :=
  let r1 := { r with status := entry.claimStatus }
  let r2 := if optTruthy entry.payerClaimNumber then
    { r1 with payer_claim_number := entry.payerClaimNumber } else r1
  match entry.claimStatus with
  | .accepted => { r2 with accepted_date := some now }
  | .rejected =>
    { r2 with
      rejected_date := some now
      rejection_reason := some entry.statusDescription
      rejection_codes := some [entry.statusCategoryCode] }
  | _ => r2

/-- The 277 matching policy: claims by control number first; if none match
and the entry carries a payer claim number, claims by payer claim number. -/
def match277 (entry : ClaimStatusInfo) (claims : List ClaimRow) : List ClaimRow :=
  let byControl := if entry.controlNumber != "" then
    claims.filter (fun r => r.control_number == some entry.controlNumber) else []
  if byControl.isEmpty && optTruthy entry.payerClaimNumber then
    claims.filter (fun r => r.payer_claim_number == entry.payerClaimNumber)
  else byControl

/-- Processing of one 277 claim-status entry: every matched claim is updated
(no status gate) and one event is recorded per successful update. -/
def process277Entry (updOk insOk : String → Bool) (now fileId : String)
    (entry : ClaimStatusInfo) (acc : Db × Nat × Nat) : Db × Nat × Nat :=
  let matched := match277 entry acc.1.claims
  let folded := claimFold
    (fun c => updOk c.id)
    (apply277Row entry now)
    (fun c =>
      { claim_id := c.id
        response_file_id := fileId
        previous_status := c.status
        new_status := entry.claimStatus
        source := .s277
        response_code := strOrNone entry.statusCategoryCode
        response_description := strOrNone entry.statusDescription
        payment_amount := none })
    insOk matched acc.1
  (folded.1, acc.2.1 + matched.length, acc.2.2 + folded.2)

/-- `process277File` (after a successful parse). -/
def process277File (updOk insOk : String → Bool) (now fileId : String)
    (parsed : Parsed277) (db : Db) : Db × ProcessResult :=
  let final := parsed.claimStatuses.foldl
    (fun acc entry => process277Entry updOk insOk now fileId entry acc) (db, 0, 0)
  (final.1,
    { success := true, claimsMatched := final.2.1, claimsUpdated := final.2.2, error := none })

/-- The status the engine drives a claim to for an 835 payment entry:
derived purely from the paid amount. -/
def engine835NewStatus (payment : ClaimPaymentInfo) : ClaimStatus :=
  if 0 < payment.paidAmount then .paid else .denied

/-- The denial reason string: the CO/PR adjustment codes joined with `, `. -/
def denialReasons (payment : ClaimPaymentInfo) : String :=
  String.intercalate ", "
    ((payment.adjustments.filter (fun adj => adj.groupCode == "CO" || adj.groupCode == "PR")).map
      (fun adj => adj.groupCode ++ "-" ++ adj.reasonCode))

/-- The 835 row update: paid/denied status, payer claim number, paid amount
and date; on denial, the derived rejection reason and codes. -/
def apply835Row (payment : ClaimPaymentInfo) (now : String) (r : ClaimRow) : ClaimRow :=
  let newStatus := engine835NewStatus payment
  let r1 := { r with
    status := newStatus
    payer_claim_number := strOrNone payment.payerClaimNumber
    paid_amount := some payment.paidAmount
    paid_date := some now }
  if newStatus == .denied then
    { r1 with
      rejection_reason := some (jsOr (denialReasons payment) payment.statusDescription)
      rejection_codes := some (payment.adjustments.map (fun adj =>
        adj.groupCode ++ "-" ++ adj.reasonCode)) }
  else r1

/-- The 835 matching policy: claims by the patient control number first,
falling back to the payer claim number. -/
def match835 (payment : ClaimPaymentInfo) (claims : List ClaimRow) : List ClaimRow :=
  let byControl := if payment.patientControlNumber != "" then
    claims.filter (fun r => r.control_number == some payment.patientControlNumber) else []
  if byControl.isEmpty && payment.payerClaimNumber != "" then
    claims.filter (fun r => r.payer_claim_number == some payment.payerClaimNumber)
  else byControl

/-- Processing of one 835 claim-payment entry. -/
def process835Entry (updOk insOk : String → Bool) (now fileId : String)
    (payment : ClaimPaymentInfo) (acc : Db × Nat × Nat) : Db × Nat × Nat :=
  let matched := match835 payment acc.1.claims
  let folded := claimFold
    (fun c => updOk c.id)
    (apply835Row payment now)
    (fun c =>
      { claim_id := c.id
        response_file_id := fileId
        previous_status := c.status
        new_status := engine835NewStatus payment
        source := .s835
        response_code := strOrNone payment.statusCode
        response_description := strOrNone payment.statusDescription
        payment_amount := amtOrNone (some payment.paidAmount) })
    insOk matched acc.1
  (folded.1, acc.2.1 + matched.length, acc.2.2 + folded.2)

/-- `process835File` (after a successful parse). -/
def process835File (updOk insOk : String → Bool) (now fileId : String)
    (parsed : Parsed835) (db : Db) : Db × ProcessResult :=
  let final := parsed.claimPayments.foldl
    (fun acc payment => process835Entry updOk insOk now fileId payment acc) (db, 0, 0)
  (final.1,
    { success := true, claimsMatched := final.2.1, claimsUpdated := final.2.2, error := none })

/-! ### Derived quantities and concrete inputs used by the theorems -/

/-- The number of segments from the ST transaction header through the SE
trailer, inclusive, in a tokenized transaction (the count the X12 standard
requires in SE01). -/
def stToSeSegmentCount (segs : List Segment) : Nat :=
  ((segs.dropWhile (fun s => s.id != "ST")).takeWhile (fun s => s.id != "SE")).length + 1

/-- The claim status the 277 code table assigns to a status-category code
(`pending` when the code is absent from the table). -/
def stcCategoryToStatus (code : String) : ClaimStatus :=
  ((STC_CATEGORY_CODES code).map (fun i => i.claimStatus)).getD .pending

/-- The description the 277 code table assigns to a status-category code
(a generic `Status <code>` when the code is absent from the table). -/
def stcCategoryDescription (code : String) : String :=
  ((STC_CATEGORY_CODES code).map (fun i => i.description)).getD ("Status " ++ code)

/-- The claim status the 835 parser derives from a CLP status code: `paid`
iff the code table marks the code as paid, `denied` otherwise (including
codes absent from the table). -/
def clpCodeToStatus (code : String) : ClaimStatus :=
  match CLP_STATUS_CODES code with
  | some info => if info.isPaid then .paid else .denied
  | none => .denied

/-- A fixed generation timestamp for the concrete examples. -/
def exNow : JsDate := ⟨2026, 1, 15, 10, 30, 45⟩

/-- A concrete valid claim: one service line, subscriber is the patient,
a non-primary diagnosis listed before the primary one. -/
def exClaim : EDIClaimData :=
  { patientFirstName := "JANE"
    patientLastName := "DOE"
    patientDob := "19900101"
    patientGender := "F"
    patientAddress := ⟨"123 MAIN ST", "SLC", "UT", "84101"⟩
    payerId := "U6980"
    memberId := "MEM123"
    groupNumber := some "GRP1"
    subscriberName := "JANE DOE"
    subscriberDob := "19900101"
    subscriberRelationship := "self"
    diagnosisCodes := [⟨"F33.0", false⟩, ⟨"F41.1", true⟩]
    serviceLines := [⟨"20260110", "99214", none, 1, 150, [1]⟩]
    renderingNpi := "1234567890"
    billingNpi := "1999999984"
    billingTin := "871234567"
    billingName := "MOONLIT PLLC"
    billingAddress := ⟨"456 CENTER ST", "SLC", "UT", "84102"⟩
    controlNumber := "123456789" }

/-- The tokenization of the 837P generated from `exClaim`. -/
def exSegments : List Segment :=
  parseEDISegments (buildX12_837P "MOONLIT" exNow exClaim).1

/-- An 835 claim-payment segment with CLP02 status code 1 (processed as
primary), charge 150 and paid amount 0. -/
def c2Segments : List Segment := parseEDISegments "CLP*CTRL1*1*150*0*0**PCN1~"

/-- The claim payment parsed from `c2Segments`. -/
def c2Entry : ClaimPaymentInfo :=
  (parseClaimPayments c2Segments).headD (mkClaimPayment ⟨"CLP", [], "CLP"⟩ [])

/-- A store holding one claim in status `paid` with control number
123456789. -/
def c3Db : Db :=
  { claims := [{ id := "claim-1", status := .paid,
                 control_number := some "123456789", payer_claim_number := none }]
    events := [] }

/-- A 277 reporting status category A3 (rejection) for control number
123456789. -/
def c3Content : String := "TRN*2*123456789~STC*A3:21*20260110~"

/-- The parse of `c3Content`. -/
def c3Parsed : Parsed277 := (parse277 c3Content).getD ⟨"", [], false, 0⟩

/-- A store holding one claim in status `submitted` with control number
123456789. -/
def c4Db : Db :=
  { claims := [{ id := "claim-1", status := .submitted,
                 control_number := some "123456789", payer_claim_number := none }]
    events := [] }

/-- An 835 paying 120 on control number 123456789. -/
def c4Content : String := "CLP*123456789*1*150*120*0**PCN9~"

/-- The parse of `c4Content`. -/
def c4Parsed : Parsed835 :=
  (parse835 c4Content).getD ⟨"", "", "", "", "", "", "", 0, 0, 0, 0, [], [], 0⟩

/-- Processing `c4Parsed` against `c4Db` when every row update succeeds and
every event insert fails. -/
def c4Run : Db × ProcessResult :=
  process835File (fun _ => true) (fun _ => false) "2026-02-01" "file-1" c4Parsed c4Db

/-- A 999 whose AK9 trailer claims acceptance with one accepted transaction
while its only AK2/IK5 pair reports rejection. -/
def c5Content : String := "AK1*HC*123456~AK2*837*0001~IK5*R~AK9*A*1*1*1~"

/-- The parse of `c5Content`. -/
def c5Parsed : Parsed999 :=
  (parse999 c5Content).getD ⟨"", "", false, "", "", [], none, 0, 0, 0⟩

/-- A fully accepted 999 used as witness input. -/
def c5wContent : String := "AK1*HC*123456~AK2*837*0001~IK5*A~AK9*A*1*1*1~"

/-- The parse of `c5wContent`. -/
def c5wParsed : Parsed999 :=
  (parse999 c5wContent).getD ⟨"", "", false, "", "", [], none, 0, 0, 0⟩

/-- A 277 fragment whose status category is A3. -/
def c6Segments : List Segment := parseEDISegments "TRN*2*123456789~STC*A3:21*20260110~"

/-- The claim status parsed from `c6Segments`. -/
def c6Entry : ClaimStatusInfo :=
  (parseClaimStatuses c6Segments).headD (mkClaimStatus "" [])

/-- A store with two claims for the 277 matching fallback: one matched by
control number, one only by payer claim number. -/
def c7Db : Db :=
  { claims :=
      [ { id := "claim-1", status := .accepted,
          control_number := some "111111111", payer_claim_number := some "PCN-A" },
        { id := "claim-2", status := .accepted,
          control_number := some "222222222", payer_claim_number := some "PCN-B" } ]
    events := [] }

/-- A 277 entry with an unknown control number but payer claim number
PCN-B. -/
def c7Entry : ClaimStatusInfo :=
  { controlNumber := "999999999"
    payerClaimNumber := some "PCN-B"
    statusCategoryCode := "F2"
    statusCode := "1"
    statusDescription := "Finalized/Paid"
    claimStatus := .paid
    effectiveDate := none
    totalChargeAmount := none
    patientName := none
    serviceDate := none }

/-- A claim body for the C9 witness: a claim-level CAS, then a service line
with its own CAS. -/
def c9Body : List Segment :=
  parseEDISegments "CAS*CO*45*30~SVC*HC:99214*150*120**1~CAS*PR*3*10~"

/-- The CLP segment for the C9 witness. -/
def c9Clp : Segment := ⟨"CLP", ["CTRL1", "1", "150", "120", "10", "", "PCN1"], "CLP"⟩

/-- An 835 result with one claim payment that has a negative paid amount and
zero charge (a payment reversal), used as the C10 witness input. -/
def c10Parsed : Parsed835 :=
  { isaControlNumber := ""
    checkNumber := ""
    payerIdentifier := ""
    payerName := ""
    payeeName := ""
    paymentDate := ""
    paymentMethodCode := ""
    totalPaymentAmount := 0
    totalCharges := 0
    totalPaid := 0
    totalPatientResponsibility := 0
    claimPayments := [{ patientControlNumber := "CTRL1"
                        payerClaimNumber := ""
                        statusCode := "22"
                        statusDescription := "Reversal of Previous Payment"
                        chargeAmount := 0
                        paidAmount := -5
                        patientResponsibility := 0
                        adjustments := []
                        serviceLines := []
                        patientName := none
                        serviceDate := none
                        claimStatus := .denied }]
    providerAdjustments := []
    claimCount := 1 }

/-- The single claim payment of `c10Parsed`. -/
def c10Entry : ClaimPaymentInfo :=
  c10Parsed.claimPayments.headD (mkClaimPayment ⟨"CLP", [], "CLP"⟩ [])

/-! ## Theorems -/

/-- `ratAdd` is rational addition. -/
theorem ratAdd_eq_add (a b : ℚ) : ratAdd a b = a + b := (Rat.add_def' a b).symm

/-- A `takeWhile` result is a sublist of the list. -/
theorem takeWhile_sublist_self {α : Type} (p : α → Bool) :
    ∀ l : List α, (l.takeWhile p).Sublist l := by
  intro l
  induction l with
  | nil => simp
  | cons a l ih =>
    by_cases h : p a
    · rw [List.takeWhile_cons_of_pos h]
      exact ih.cons₂ a
    · simp [List.takeWhile_cons_of_neg h]

/-- Dropping the head only shrinks a `filterMap`. -/
theorem filterMap_sublist_cons {α β : Type} (f : α → Option β) (a : α) (l : List α) :
    (l.filterMap f).Sublist ((a :: l).filterMap f) := by
  cases h : f a with
  | none => simp [List.filterMap_cons, h]
  | some b =>
    rw [List.filterMap_cons_some h]
    exact List.sublist_cons_self b (l.filterMap f)

/-- Every service line's adjustments are collected from a suffix segment of
the claim body that the claim-level scan also covers, so they form a sublist
of the claim-level CAS collection over the same body. -/
theorem collectServiceLines_adjustments_sublist :
    ∀ (body : List Segment), ∀ sl ∈ collectServiceLines body,
      sl.adjustments.Sublist (body.filterMap casAdjustment) := by
  intro body
  induction body with
  | nil => intro sl h; simp [collectServiceLines] at h
  | cons s rest ih =>
    intro sl hmem
    by_cases h : s.id == "SVC"
    · rw [collectServiceLines, if_pos h] at hmem
      rcases List.mem_cons.mp hmem with hhead | htail
      · subst hhead
        exact ((takeWhile_sublist_self _ rest).filterMap casAdjustment).trans
          (filterMap_sublist_cons casAdjustment s rest)
      · exact (ih sl htail).trans (filterMap_sublist_cons casAdjustment s rest)
    · rw [collectServiceLines, if_neg h] at hmem
      exact (ih sl hmem).trans (filterMap_sublist_cons casAdjustment s rest)

/-- Every parsed claim payment is `mkClaimPayment` of some CLP and body. -/
theorem mem_parseClaimPayments_eq :
    ∀ (segs : List Segment) (p : ClaimPaymentInfo), p ∈ parseClaimPayments segs →
      ∃ clp body, p = mkClaimPayment clp body := by
  intro segs
  induction segs with
  | nil => intro p h; simp [parseClaimPayments] at h
  | cons s rest ih =>
    intro p hmem
    by_cases h : s.id == "CLP"
    · rw [parseClaimPayments, if_pos h] at hmem
      rcases List.mem_cons.mp hmem with hhead | htail
      · exact ⟨s, rest.takeWhile (fun t => t.id != "CLP"), hhead⟩
      · exact ih p htail
    · rw [parseClaimPayments, if_neg h] at hmem
      exact ih p hmem

/-- A CLP-free chunk in front does not change the parsed claim payments. -/
theorem parseClaimPayments_append_no_clp :
    ∀ (pre l : List Segment), (∀ s ∈ pre, ¬ s.id = "CLP") →
      parseClaimPayments (pre ++ l) = parseClaimPayments l := by
  intro pre
  induction pre with
  | nil => intro l _; rfl
  | cons s pre ih =>
    intro l h
    have hs : ¬ (s.id == "CLP") = true := by
      simpa using h s (List.mem_cons_self s pre)
    rw [List.cons_append, parseClaimPayments, if_neg hs]
    exact ih l (fun t ht => h t (List.mem_cons_of_mem s ht))

/-- The claim-body scan of a CLP-free body followed by the next CLP (or the
end of the file) is exactly the body. -/
theorem takeWhile_body_no_clp :
    ∀ (body rest : List Segment), (∀ s ∈ body, ¬ s.id = "CLP") →
      (rest = [] ∨ ∃ c rs, rest = c :: rs ∧ c.id = "CLP") →
      (body ++ rest).takeWhile (fun t => t.id != "CLP") = body := by
  intro body
  induction body with
  | nil =>
    intro rest _ hrest
    rcases hrest with rfl | ⟨c, rs, rfl, hc⟩
    · rfl
    · simp [List.takeWhile_cons, hc]
  | cons s body ih =>
    intro rest h hrest
    have hs : (s.id != "CLP") = true := by
      simpa using h s (List.mem_cons_self s body)
    rw [List.cons_append]
    simp only [List.takeWhile_cons, hs, if_true]
    rw [ih rest (fun t ht => h t (List.mem_cons_of_mem s ht)) hrest]

/-! ### C1 -/

/-- C1: the SE trailer's count element must equal the number of segments
from ST through SE inclusive. The generated 837P for the concrete claim
`exClaim` carries SE01 = 28, while the actual ST..SE segment count of the
tokenized output is 26: the source computes `segments.length + 1` over a
list that still includes the ISA and GS envelope segments, overcounting by
two. -/
theorem c1_se_count_mismatch :
    getElement (findSegment exSegments "SE") 0 = "28"
    ∧ stToSeSegmentCount exSegments = 26
    ∧ toString (stToSeSegmentCount exSegments) ≠ getElement (findSegment exSegments "SE") 0 := by
  refine ⟨by decide, by decide, by decide⟩

/-! ### C2 -/

/-- C2 counterexample: the parsed entry of a CLP with status code 1, charge
150 and paid amount 0 has `claimStatus = paid`, refuting the claim that the
parsed entry's `claimStatus` is `denied` whenever `paidAmount` is not
positive. -/
theorem c2_counterexample :
    c2Entry ∈ parseClaimPayments c2Segments
    ∧ c2Entry.paidAmount = 0 ∧ c2Entry.chargeAmount = 150
    ∧ c2Entry.claimStatus = ClaimStatus.paid
    ∧ ¬ (∀ segs : List Segment, ∀ cp ∈ parseClaimPayments segs,
          cp.claimStatus = if 0 < cp.paidAmount then ClaimStatus.paid else .denied) := by
  refine ⟨by decide, by decide, by decide, by decide, ?_⟩
  intro h
  have h2 := h c2Segments c2Entry (by decide)
  revert h2
  decide

/-- C2 (amended): the parsed entry's `claimStatus` is derived from the CLP
status code through the code table (`paid` iff the code's `isPaid` flag,
`denied` otherwise), while the reconciliation engine's applied status for an
835 entry is derived purely from the paid amount (`paid` iff it is
positive). -/
theorem c2_claim_status_rule :
    (∀ segs : List Segment, ∀ cp ∈ parseClaimPayments segs,
      cp.claimStatus = clpCodeToStatus cp.statusCode)
    ∧ (∀ payment : ClaimPaymentInfo,
        engine835NewStatus payment = if 0 < payment.paidAmount then .paid else .denied) := by
  constructor
  · intro segs cp hmem
    obtain ⟨clp, body, rfl⟩ := mem_parseClaimPayments_eq segs cp hmem
    rfl
  · intro payment
    rfl

/-- C2 witness: the rule instantiated at the concrete parsed entry. -/
theorem c2_claim_status_rule_witness :
    c2Entry.claimStatus = clpCodeToStatus c2Entry.statusCode :=
  c2_claim_status_rule.1 c2Segments c2Entry (by decide)

/-! ### C10 -/

/-- C10: the paid/denied helpers do not partition the claim payments: an
entry whose paid amount is not positive and whose charge amount is not
positive is returned by neither `getPaidClaims` nor `getDeniedClaims`. -/
theorem c10_not_a_partition :
    ∀ (parsed : Parsed835), ∀ cp ∈ parsed.claimPayments,
      cp.paidAmount ≤ 0 → ¬ 0 < cp.chargeAmount →
      cp ∉ getPaidClaims parsed ∧ cp ∉ getDeniedClaims parsed := by
  intro parsed cp _hmem hpaid hcharge
  constructor
  · intro hin
    have h2 := (List.mem_filter.mp hin).2
    simp only [decide_eq_true_eq] at h2
    exact absurd h2 (not_lt.mpr hpaid)
  · intro hin
    have h2 := (List.mem_filter.mp hin).2
    simp only [Bool.and_eq_true, decide_eq_true_eq] at h2
    exact hcharge h2.2

/-- C10 witness: a negative-amount payment reversal with zero charge is in
neither helper's output. -/
theorem c10_not_a_partition_witness :
    c10Entry ∉ getPaidClaims c10Parsed ∧ c10Entry ∉ getDeniedClaims c10Parsed :=
  c10_not_a_partition c10Parsed c10Entry (by decide) (by decide) (by decide)


/-! ### C9 -/

/-- C9: in every parse835 result, a claim payment's claim-level adjustment
list collects every CAS adjustment between its CLP and the next CLP (or the
end of the file), including CAS segments that follow an SVC service line;
consequently each service line's adjustments also appear (as a sublist) in
the claim-level adjustment list. -/
theorem c9_claim_level_adjustments :
    (∀ (pre : List Segment) (clp : Segment) (body rest : List Segment),
       clp.id = "CLP" →
       (∀ s ∈ pre, ¬ s.id = "CLP") →
       (∀ s ∈ body, ¬ s.id = "CLP") →
       (rest = [] ∨ ∃ c rs, rest = c :: rs ∧ c.id = "CLP") →
       parseClaimPayments (pre ++ clp :: (body ++ rest))
         = mkClaimPayment clp body :: parseClaimPayments rest
       ∧ (mkClaimPayment clp body).adjustments = body.filterMap casAdjustment
       ∧ ∀ sl ∈ (mkClaimPayment clp body).serviceLines,
           sl.adjustments.Sublist (mkClaimPayment clp body).adjustments)
    ∧ (∀ segs : List Segment, ∀ p ∈ parseClaimPayments segs, ∀ sl ∈ p.serviceLines,
        sl.adjustments.Sublist p.adjustments) := by
  constructor
  · intro pre clp body rest hclp hpre hbody hrest
    have hclpb : (clp.id == "CLP") = true := by simp [hclp]
    refine ⟨?_, rfl, ?_⟩
    · rw [parseClaimPayments_append_no_clp pre _ hpre]
      rw [parseClaimPayments, if_pos hclpb]
      rw [takeWhile_body_no_clp body rest hbody hrest]
      rw [parseClaimPayments_append_no_clp body rest hbody]
    · intro sl hsl
      exact collectServiceLines_adjustments_sublist body sl hsl
  · intro segs p hmem sl hsl
    obtain ⟨clp, body, rfl⟩ := mem_parseClaimPayments_eq segs p hmem
    exact collectServiceLines_adjustments_sublist body sl hsl

/-- C9 witness: the decomposition applied to a concrete claim loop with a
claim-level CAS and a service line carrying its own CAS. -/
theorem c9_claim_level_adjustments_witness :
    parseClaimPayments ([] ++ c9Clp :: (c9Body ++ []))
      = mkClaimPayment c9Clp c9Body :: parseClaimPayments []
    ∧ (mkClaimPayment c9Clp c9Body).adjustments = c9Body.filterMap casAdjustment :=
  ⟨(c9_claim_level_adjustments.1 [] c9Clp c9Body [] (by decide) (by decide) (by decide)
      (Or.inl rfl)).1,
   (c9_claim_level_adjustments.1 [] c9Clp c9Body [] (by decide) (by decide) (by decide)
      (Or.inl rfl)).2.1⟩

/-! ### C6 -/

/-- Every parsed 277 claim status is `mkClaimStatus` of some trace number
and body. -/
theorem mem_parseClaimStatuses_eq :
    ∀ (segs : List Segment) (cs : ClaimStatusInfo), cs ∈ parseClaimStatuses segs →
      ∃ cn body, cs = mkClaimStatus cn body := by
  intro segs
  induction segs with
  | nil => intro cs h; simp [parseClaimStatuses] at h
  | cons s rest ih =>
    intro cs hmem
    by_cases h1 : s.id == "TRN"
    · by_cases h2 : getElement (some s) 1 == ""
      · rw [parseClaimStatuses, if_pos h1, if_pos h2] at hmem
        exact ih cs hmem
      · rw [parseClaimStatuses, if_pos h1, if_neg h2] at hmem
        rcases List.mem_cons.mp hmem with hhead | htail
        · exact ⟨_, _, hhead⟩
        · exact ih cs htail
    · rw [parseClaimStatuses, if_neg h1] at hmem
      exact ih cs hmem

/-- C6: every parsed 277 entry's claim status and description come from the
code table lookup of its status-category code, with `pending` and a generic
description for codes absent from the table; in particular A3 maps to
rejected, F2 to paid, and the unknown code Z9 to pending. -/
theorem c6_category_mapping :
    (∀ segs : List Segment, ∀ cs ∈ parseClaimStatuses segs,
        cs.claimStatus = stcCategoryToStatus cs.statusCategoryCode
        ∧ cs.statusDescription = stcCategoryDescription cs.statusCategoryCode)
    ∧ stcCategoryToStatus "A3" = .rejected
    ∧ stcCategoryToStatus "F2" = .paid
    ∧ stcCategoryToStatus "Z9" = .pending
    ∧ stcCategoryDescription "Z9" = "Status Z9" := by
  refine ⟨?_, by decide, by decide, by decide, by decide⟩
  intro segs cs hmem
  obtain ⟨cn, body, rfl⟩ := mem_parseClaimStatuses_eq segs cs hmem
  exact ⟨rfl, rfl⟩

/-- C6 witness: the mapping rule at a concrete A3 entry. -/
theorem c6_category_mapping_witness :
    c6Entry.claimStatus = stcCategoryToStatus c6Entry.statusCategoryCode
    ∧ c6Entry.statusDescription = stcCategoryDescription c6Entry.statusCategoryCode :=
  c6_category_mapping.1 c6Segments c6Entry (by decide)

/-! ### C5 -/

/-- C5 counterexample: a 999 whose AK9 trailer reports `A` with accepted
count 1 while its only AK2/IK5 pair reports `R` satisfies `is999Accepted`,
refuting "accepted iff the overall outcome is accepted and at least one
transaction-set response was individually accepted". -/
theorem c5_counterexample :
    is999Accepted c5Parsed = true
    ∧ c5Parsed.transactionSetResponses.map (fun t => t.accepted) = [false]
    ∧ ¬ (∀ (content : String) (p : Parsed999), parse999 content = some p →
          (is999Accepted p = true ↔
            (p.accepted = true ∧ ∃ t ∈ p.transactionSetResponses, t.accepted = true))) := by
  refine ⟨by decide, by decide, ?_⟩
  intro h
  have h2 := (h c5Content c5Parsed (by decide)).mp (by decide)
  have h3 : ¬ ∃ t ∈ c5Parsed.transactionSetResponses, t.accepted = true := by decide
  exact h3 h2.2

/-- C5 (amended): `is999Accepted` holds iff the AK9 status code is A or E
and the AK9 trailer's accepted-transaction-count element is positive; the
individually parsed AK2/IK5 outcomes are not consulted. -/
theorem c5_is999Accepted_rule :
    ∀ (content : String) (p : Parsed999), parse999 content = some p →
      (is999Accepted p = true ↔
        ((p.statusCode = "A" ∨ p.statusCode = "E") ∧ 0 < p.acceptedTransactionCount)) := by
  intro content p h
  simp only [parse999] at h
  by_cases hseg : (parseEDISegments content).isEmpty
  · rw [if_pos hseg] at h
    exact absurd h (by simp)
  · rw [if_neg hseg] at h
    injection h with h2
    subst h2
    simp [is999Accepted, Bool.and_eq_true, decide_eq_true_eq, Bool.or_eq_true, beq_iff_eq]

/-- C5 witness: the rule at a concrete fully-accepted 999. -/
theorem c5_is999Accepted_rule_witness :
    is999Accepted c5wParsed = true ↔
      ((c5wParsed.statusCode = "A" ∨ c5wParsed.statusCode = "E")
        ∧ 0 < c5wParsed.acceptedTransactionCount) :=
  c5_is999Accepted_rule c5wContent c5wParsed (by decide)

/-! ### C8 -/

/-- C8 counterexample: the generator does not leave the input claim data
unchanged: `Array.prototype.sort` reorders the input's diagnosis list in
place (the non-primary F33.0 was listed first, the primary F41.1 is first
afterwards). -/
theorem c8_counterexample :
    (buildX12_837P "MOONLIT" exNow exClaim).2.diagnosisCodes ≠ exClaim.diagnosisCodes
    ∧ (buildX12_837P "MOONLIT" exNow exClaim).2.diagnosisCodes
        = [⟨"F41.1", true⟩, ⟨"F33.0", false⟩] :=
  ⟨by decide, by decide⟩

/-- C8 (amended): the generator only returns text and (because the
diagnosis sort mutates in place) reorders the input's diagnosis list to a
stable primaries-first permutation; every other input field is left
unchanged. -/
theorem c8_frame :
    ∀ (senderId : String) (now : JsDate) (data : EDIClaimData),
      ((buildX12_837P senderId now data).2.diagnosisCodes).Perm data.diagnosisCodes
      ∧ (buildX12_837P senderId now data).2
          = { data with diagnosisCodes := sortPrimaryFirst data.diagnosisCodes } := by
  intro senderId now data
  exact ⟨List.filter_append_perm _ data.diagnosisCodes, rfl⟩

/-! ### Engine characterization machinery -/

/-- The claims component of one engine loop iteration. -/
theorem claimStep_claims (gate : ClaimRow → Bool) (upd : ClaimRow → ClaimRow)
    (mkEv : ClaimRow → StatusEventRow) (insOk : String → Bool) (acc : Db × Nat)
    (c : ClaimRow) :
    (claimStep gate upd mkEv insOk acc c).1.claims
      = if gate c then updateById acc.1.claims c.id upd else acc.1.claims := by
  by_cases h : gate c
  · simp only [claimStep, if_pos h, recordStatusEvent]
    by_cases h2 : insOk c.id <;> simp [h2]
  · simp [claimStep, h]

/-- The updated-count component of one engine loop iteration. -/
theorem claimStep_snd (gate : ClaimRow → Bool) (upd : ClaimRow → ClaimRow)
    (mkEv : ClaimRow → StatusEventRow) (insOk : String → Bool) (acc : Db × Nat)
    (c : ClaimRow) :
    (claimStep gate upd mkEv insOk acc c).2 = if gate c then acc.2 + 1 else acc.2 := by
  by_cases h : gate c <;> simp [claimStep, h]

/-- The events of one engine loop iteration when the insert succeeds. -/
theorem claimStep_events_true (gate : ClaimRow → Bool) (upd : ClaimRow → ClaimRow)
    (mkEv : ClaimRow → StatusEventRow) (acc : Db × Nat) (c : ClaimRow) :
    (claimStep gate upd mkEv (fun _ => true) acc c).1.events.length
      = if gate c then acc.1.events.length + 1 else acc.1.events.length := by
  by_cases h : gate c <;> simp [claimStep, h, recordStatusEvent]

/-- The claims component of the engine loop is the corresponding fold of row
updates (the events do not feed back into the claims). -/
theorem foldl_claimStep_claims (gate : ClaimRow → Bool) (upd : ClaimRow → ClaimRow)
    (mkEv : ClaimRow → StatusEventRow) (insOk : String → Bool) :
    ∀ (ms : List ClaimRow) (acc : Db × Nat),
      ((ms.foldl (claimStep gate upd mkEv insOk) acc).1).claims
        = ms.foldl (fun cl c => if gate c then updateById cl c.id upd else cl) acc.1.claims := by
  intro ms
  induction ms with
  | nil => intro acc; rfl
  | cons c ms ih =>
    intro acc
    rw [List.foldl_cons, List.foldl_cons, ih, claimStep_claims]

/-- With always-succeeding inserts, the engine loop appends exactly one
event per counted update. -/
theorem foldl_claimStep_events (gate : ClaimRow → Bool) (upd : ClaimRow → ClaimRow)
    (mkEv : ClaimRow → StatusEventRow) :
    ∀ (ms : List ClaimRow) (acc : Db × Nat),
      (ms.foldl (claimStep gate upd mkEv (fun _ => true)) acc).1.events.length + acc.2
        = acc.1.events.length + (ms.foldl (claimStep gate upd mkEv (fun _ => true)) acc).2 := by
  intro ms
  induction ms with
  | nil => intro acc; rfl
  | cons c ms ih =>
    intro acc
    rw [List.foldl_cons]
    have h2 := ih (claimStep gate upd mkEv (fun _ => true) acc c)
    have h3 := claimStep_events_true gate upd mkEv acc c
    have h4 := claimStep_snd gate upd mkEv (fun _ => true) acc c
    by_cases h : gate c
    · rw [if_pos h] at h3 h4
      omega
    · rw [if_neg h] at h3 h4
      omega

/-- Rows of a list with nodup ids are determined by their id. -/
theorem claimRow_id_inj {l : List ClaimRow}
    (hnd : (l.map (fun r => r.id)).Nodup) {a b : ClaimRow}
    (ha : a ∈ l) (hb : b ∈ l) (hab : a.id = b.id) : a = b :=
  List.inj_on_of_nodup_map hnd ha hb hab

/-- Core characterization: folding id-keyed row updates of a snapshot
sub-multiset `ms` of a nodup-id store over that store applies the update
exactly to the rows of `ms` that pass the gate. The accumulator is tracked
through the already-updated predicate `s`. -/
theorem foldl_update_aux (upd : ClaimRow → ClaimRow) (gate : ClaimRow → Bool)
    (hid : ∀ r, (upd r).id = r.id) (l : List ClaimRow)
    (hnd : (l.map (fun r => r.id)).Nodup) :
    ∀ (ms : List ClaimRow) (s : ClaimRow → Bool),
      (∀ c ∈ ms, c ∈ l) → ((ms.map (fun r => r.id)).Nodup) → (∀ c ∈ ms, s c = false) →
      ms.foldl (fun cl c => if gate c then updateById cl c.id upd else cl)
          (l.map (fun r => if s r then upd r else r))
        = l.map (fun r => if s r || (decide (r ∈ ms) && gate r) then upd r else r) := by
  intro ms
  induction ms with
  | nil =>
    intro s _ _ _
    simp
  | cons c ms ih =>
    intro s hsub hnd2 hs0
    have hcl : c ∈ l := hsub c (List.mem_cons_self c ms)
    have hsc : s c = false := hs0 c (List.mem_cons_self c ms)
    have hcnotms : c ∉ ms := by
      intro hcm
      have : c.id ∈ ms.map (fun r => r.id) := List.mem_map_of_mem _ hcm
      exact (List.nodup_cons.mp hnd2).1 this
    have hsub2 : ∀ x ∈ ms, x ∈ l := fun x hx => hsub x (List.mem_cons_of_mem c hx)
    have hnd3 : (ms.map (fun r => r.id)).Nodup := (List.nodup_cons.mp hnd2).2
    rw [List.foldl_cons]
    by_cases hg : gate c
    · rw [if_pos hg]
      have hstep : updateById (l.map (fun r => if s r then upd r else r)) c.id upd
          = l.map (fun r => if s r || decide (r = c) then upd r else r) := by
        unfold updateById
        rw [List.map_map]
        apply List.map_congr_left
        intro r hr
        by_cases hrc : r = c
        · subst hrc
          simp [Function.comp, hsc]
        · have hne : ¬ r.id = c.id := fun he => hrc (claimRow_id_inj hnd hr hcl he)
          by_cases hsr : s r <;> simp [Function.comp, hsr, hrc, hne, hid r]
      rw [hstep]
      have hs0' : ∀ x ∈ ms, (s x || decide (x = c)) = false := by
        intro x hx
        have hxc : ¬ x = c := by
          intro he
          exact hcnotms (he ▸ hx)
        simp [hs0 x (List.mem_cons_of_mem c hx), hxc]
      rw [ih (fun r => s r || decide (r = c)) hsub2 hnd3 hs0']
      apply List.map_congr_left
      intro r hr
      by_cases hrc : r = c
      · subst hrc
        simp [hg, List.mem_cons]
      · simp [hrc, List.mem_cons]
    · rw [if_neg hg]
      rw [ih s hsub2 hnd3 (fun x hx => hs0 x (List.mem_cons_of_mem c hx))]
      apply List.map_congr_left
      intro r hr
      by_cases hrc : r = c
      · subst hrc
        simp [hg, List.mem_cons]
      · simp [hrc, List.mem_cons]

/-- Folding the id-keyed updates of the gate-filtered snapshot over the
store applies the update exactly to the rows passing the filter and the
gate. -/
theorem foldl_update_filter (upd : ClaimRow → ClaimRow) (gate q : ClaimRow → Bool)
    (hid : ∀ r, (upd r).id = r.id) (l : List ClaimRow)
    (hnd : (l.map (fun r => r.id)).Nodup) :
    (l.filter q).foldl (fun cl c => if gate c then updateById cl c.id upd else cl) l
      = l.map (fun r => if q r && gate r then upd r else r) := by
  have hnodupf : ((l.filter q).map (fun r => r.id)).Nodup :=
    hnd.sublist ((List.filter_sublist l).map (fun r => r.id))
  calc (l.filter q).foldl (fun cl c => if gate c then updateById cl c.id upd else cl) l
      = (l.filter q).foldl (fun cl c => if gate c then updateById cl c.id upd else cl)
          (l.map (fun r => if (fun _ => false : ClaimRow → Bool) r then upd r else r)) := by
        simp
    _ = l.map (fun r =>
          if (fun _ => false : ClaimRow → Bool) r || (decide (r ∈ l.filter q) && gate r)
            then upd r else r) := foldl_update_aux upd gate hid l hnd (l.filter q)
              (fun _ => false) (fun c hc => (List.mem_filter.mp hc).1) hnodupf (fun c _ => rfl)
    _ = l.map (fun r => if q r && gate r then upd r else r) := by
        apply List.map_congr_left
        intro r hr
        have h2 : decide (r ∈ l.filter q) = q r := by
          by_cases hq : q r = true <;> simp [List.mem_filter, hr, hq]
        rw [Bool.false_or, h2]

/-- The 999 row update does not change the row id. -/
theorem apply999Row_id (parsed : Parsed999) (now : String) (r : ClaimRow) :
    (apply999Row parsed now r).id = r.id := rfl

/-- The 277 row update does not change the row id. -/
theorem apply277Row_id (entry : ClaimStatusInfo) (now : String) (r : ClaimRow) :
    (apply277Row entry now r).id = r.id := by
  by_cases h : optTruthy entry.payerClaimNumber <;>
    cases hcs : entry.claimStatus <;> simp [apply277Row, h, hcs]

/-- The 835 row update does not change the row id. -/
theorem apply835Row_id (payment : ClaimPaymentInfo) (now : String) (r : ClaimRow) :
    (apply835Row payment now r).id = r.id := by
  by_cases h : engine835NewStatus payment == ClaimStatus.denied <;> simp [apply835Row, h]

/-- Row-wise characterization of 999 processing on a store with nodup ids:
exactly the rows matching the control number, passing the status gate and
whose update succeeds are replaced by the 999 row update. -/
theorem process999File_claims (updOk insOk : String → Bool) (now fileId : String)
    (parsed : Parsed999) (db : Db)
    (hnd : (db.claims.map (fun r => r.id)).Nodup) :
    (process999File updOk insOk now fileId parsed db).1.claims
      = if parsed.originalControlNumber == "" then db.claims
        else db.claims.map (fun r =>
          if (r.control_number == some parsed.originalControlNumber)
              && (gate999 parsed r && updOk r.id)
            then apply999Row parsed now r else r) := by
  by_cases hcn : parsed.originalControlNumber == ""
  · simp [process999File, hcn]
  · rw [if_neg hcn]
    simp only [process999File, if_neg hcn]
    rw [claimFold, foldl_claimStep_claims]
    exact foldl_update_filter (apply999Row parsed now)
      (fun c => gate999 parsed c && updOk c.id)
      (fun r => r.control_number == some parsed.originalControlNumber)
      (fun r => apply999Row_id parsed now r) db.claims hnd

/-- A pointwise property along a map gives a `Forall₂`. -/
theorem forall₂_of_map {α : Type} {R : α → α → Prop} :
    ∀ (l : List α) (f : α → α), (∀ x ∈ l, R x (f x)) → List.Forall₂ R l (l.map f) := by
  intro l f
  induction l with
  | nil => intro _; exact List.Forall₂.nil
  | cons a l ih =>
    intro h
    exact List.Forall₂.cons (h a (List.mem_cons_self a l))
      (ih (fun x hx => h x (List.mem_cons_of_mem a hx)))

/-! ### C3 -/

/-- C3 counterexample: a claim in status `paid` whose control number is
echoed by a 277 entry with category A3 is regressed to `rejected` by
`process277File` — the 277 path applies the mapped status unconditionally. -/
theorem c3_counterexample :
    c3Db.claims.map (fun r => r.status) = [ClaimStatus.paid]
    ∧ c3Parsed.claimStatuses.map (fun cs => (cs.controlNumber, cs.claimStatus))
        = [("123456789", ClaimStatus.rejected)]
    ∧ ((process277File (fun _ => true) (fun _ => true) "2026-02-01" "file-1" c3Parsed
          c3Db).1.claims.map (fun r => r.status)) = [ClaimStatus.rejected]
    ∧ ClaimStatus.rejected ≠ ClaimStatus.paid :=
  ⟨by decide, by decide, by decide, by decide⟩

/-- C3 (amended): on a store with nodup ids, a claim in status `paid` is
never changed by 999 processing (its status gate only passes `submitted`,
or `acknowledged` on a negative 999); a 277, however, can regress it (see
the counterexample). -/
theorem c3_999_never_regresses_paid :
    ∀ (updOk insOk : String → Bool) (now fileId : String) (parsed : Parsed999) (db : Db),
      (db.claims.map (fun r => r.id)).Nodup →
      List.Forall₂ (fun old new => old.status = ClaimStatus.paid → new = old)
        db.claims (process999File updOk insOk now fileId parsed db).1.claims := by
  intro updOk insOk now fileId parsed db hnd
  rw [process999File_claims updOk insOk now fileId parsed db hnd]
  by_cases hcn : parsed.originalControlNumber == ""
  · rw [if_pos hcn]
    exact List.forall₂_same.mpr (fun x _ => fun _ => rfl)
  · rw [if_neg hcn]
    apply forall₂_of_map
    intro x _hx hpaid
    have hg : gate999 parsed x = false := by simp [gate999, hpaid]
    simp [hg]

/-- C3 witness: the 999 invariant applied to the concrete paid-claim store. -/
theorem c3_999_never_regresses_paid_witness :
    List.Forall₂ (fun old new => old.status = ClaimStatus.paid → new = old)
      c3Db.claims
      (process999File (fun _ => true) (fun _ => true) "2026-02-01" "file-1" c5wParsed
        c3Db).1.claims :=
  c3_999_never_regresses_paid (fun _ => true) (fun _ => true) "2026-02-01" "file-1"
    c5wParsed c3Db (by decide)

/-! ### C4 -/

/-- C4 counterexample: with a matched claim whose row update succeeds and
whose event insert fails, the claim mutation is applied, no event is
recorded, and the processing result still reports success with no error —
the insert failure is swallowed. -/
theorem c4_counterexample :
    c4Run.1.claims.map (fun r => r.status) = [ClaimStatus.paid]
    ∧ c4Run.1.events = []
    ∧ c4Run.2 = { success := true, claimsMatched := 1, claimsUpdated := 1, error := none } :=
  ⟨by decide, by decide, by decide⟩

/-- With always-succeeding inserts the engine loop appends exactly one event
per counted update. -/
theorem claimFold_events_length (gate : ClaimRow → Bool) (upd : ClaimRow → ClaimRow)
    (mkEv : ClaimRow → StatusEventRow) (ms : List ClaimRow) (db : Db) :
    (claimFold gate upd mkEv (fun _ => true) ms db).1.events.length
      = db.events.length + (claimFold gate upd mkEv (fun _ => true) ms db).2 := by
  have h2 := foldl_claimStep_events gate upd mkEv ms (db, 0)
  simpa [claimFold] using h2

/-- One 835 entry's processing appends exactly one event per counted update
when inserts succeed. -/
theorem process835Entry_events (updOk : String → Bool) (now fileId : String)
    (payment : ClaimPaymentInfo) (acc : Db × Nat × Nat) :
    (process835Entry updOk (fun _ => true) now fileId payment acc).1.events.length + acc.2.2
      = acc.1.events.length
        + (process835Entry updOk (fun _ => true) now fileId payment acc).2.2 := by
  simp only [process835Entry]
  rw [claimFold_events_length]
  omega

/-- Event accounting across a whole 835 payment list. -/
theorem process835File_events_aux (updOk : String → Bool) (now fileId : String) :
    ∀ (payments : List ClaimPaymentInfo) (acc : Db × Nat × Nat),
      (payments.foldl
        (fun a payment => process835Entry updOk (fun _ => true) now fileId payment a)
        acc).1.events.length + acc.2.2
      = acc.1.events.length
        + (payments.foldl
            (fun a payment => process835Entry updOk (fun _ => true) now fileId payment a)
            acc).2.2 := by
  intro payments
  induction payments with
  | nil => intro acc; rfl
  | cons p ps ih =>
    intro acc
    rw [List.foldl_cons]
    have h2 := ih (process835Entry updOk (fun _ => true) now fileId p acc)
    have h3 := process835Entry_events updOk now fileId p acc
    omega

/-- C4 (amended): when every event insert succeeds, 835 processing appends
exactly one status event per applied claim mutation; the per-claim loop
never aborts, and the processing result always reports success with no
error — so a failed insert (swallowed, see the counterexample) or a failed
update is not surfaced there. -/
theorem c4_event_accounting :
    ∀ (updOk insOk : String → Bool) (now fileId : String) (parsed : Parsed835) (db : Db),
      ((process835File updOk (fun _ => true) now fileId parsed db).1.events.length
        = db.events.length
          + (process835File updOk (fun _ => true) now fileId parsed db).2.claimsUpdated)
      ∧ (process835File updOk insOk now fileId parsed db).2.success = true
      ∧ (process835File updOk insOk now fileId parsed db).2.error = none := by
  intro updOk insOk now fileId parsed db
  refine ⟨?_, rfl, rfl⟩
  have h2 := process835File_events_aux updOk now fileId parsed.claimPayments (db, 0, 0)
  simpa [process835File] using h2

/-! ### C7 -/

/-- C7: the 277 matching policy on a store with nodup ids: if the control
number matches some stored claim, exactly the rows with that control number
are updated (the payer claim number is not consulted for matching); if no
control-number match exists and the entry carries a payer claim number,
exactly the rows with that payer claim number are updated; if neither
matches, the store and the counters are left untouched. -/
theorem c7_matching_fallback :
    ∀ (insOk : String → Bool) (now fileId : String) (entry : ClaimStatusInfo)
      (db : Db) (m u : Nat),
      (db.claims.map (fun r => r.id)).Nodup →
      ((entry.controlNumber ≠ ""
          ∧ db.claims.filter (fun r => r.control_number == some entry.controlNumber) ≠ []) →
        (process277Entry (fun _ => true) insOk now fileId entry (db, m, u)).1.claims
          = db.claims.map (fun r =>
              if r.control_number == some entry.controlNumber
                then apply277Row entry now r else r))
      ∧ ((entry.controlNumber = ""
          ∨ db.claims.filter (fun r => r.control_number == some entry.controlNumber) = []) →
         optTruthy entry.payerClaimNumber = true →
         (process277Entry (fun _ => true) insOk now fileId entry (db, m, u)).1.claims
           = db.claims.map (fun r =>
               if r.payer_claim_number == entry.payerClaimNumber
                 then apply277Row entry now r else r))
      ∧ ((entry.controlNumber = ""
          ∨ db.claims.filter (fun r => r.control_number == some entry.controlNumber) = []) →
         optTruthy entry.payerClaimNumber = false →
         (process277Entry (fun _ => true) insOk now fileId entry (db, m, u)).1 = db
           ∧ (process277Entry (fun _ => true) insOk now fileId entry (db, m, u)).2
               = (m, u)) := by
  intro insOk now fileId entry db m u hnd
  refine ⟨?_, ?_, ?_⟩
  · rintro ⟨hcne, hne⟩
    have hm : match277 entry db.claims
        = db.claims.filter (fun r => r.control_number == some entry.controlNumber) := by
      simp only [match277]
      rw [if_pos (show (entry.controlNumber != "") = true by simp [hcne])]
      rw [if_neg]
      intro hcontra
      rcases Bool.and_eq_true .. |>.mp hcontra with ⟨hemp, _⟩
      exact hne (List.isEmpty_iff.mp hemp)
    simp only [process277Entry, hm]
    rw [claimFold, foldl_claimStep_claims]
    have h2 := foldl_update_filter (apply277Row entry now) (fun _ => true)
      (fun r => r.control_number == some entry.controlNumber)
      (fun r => apply277Row_id entry now r) db.claims hnd
    simp only [Bool.and_true] at h2
    exact h2
  · intro hnomatch htruthy
    have hbc : (if entry.controlNumber != "" then
        db.claims.filter (fun r => r.control_number == some entry.controlNumber)
        else []) = [] := by
      rcases hnomatch with hc | hf
      · rw [if_neg]
        simp [hc]
      · by_cases h : (entry.controlNumber != "") = true
        · rw [if_pos h]; exact hf
        · rw [if_neg h]
    have hm : match277 entry db.claims
        = db.claims.filter (fun r => r.payer_claim_number == entry.payerClaimNumber) := by
      simp only [match277]
      rw [hbc]
      simp [htruthy]
    simp only [process277Entry, hm]
    rw [claimFold, foldl_claimStep_claims]
    have h2 := foldl_update_filter (apply277Row entry now) (fun _ => true)
      (fun r => r.payer_claim_number == entry.payerClaimNumber)
      (fun r => apply277Row_id entry now r) db.claims hnd
    simp only [Bool.and_true] at h2
    exact h2
  · intro hnomatch hfalsy
    have hbc : (if entry.controlNumber != "" then
        db.claims.filter (fun r => r.control_number == some entry.controlNumber)
        else []) = [] := by
      rcases hnomatch with hc | hf
      · rw [if_neg]
        simp [hc]
      · by_cases h : (entry.controlNumber != "") = true
        · rw [if_pos h]; exact hf
        · rw [if_neg h]
    have hm : match277 entry db.claims = [] := by
      simp only [match277]
      rw [hbc]
      simp [hfalsy]
    simp [process277Entry, hm, claimFold]

/-- C7 witness: the payer-claim-number fallback applied to the concrete
store `c7Db` and entry `c7Entry`. -/
theorem c7_matching_fallback_witness :
    (process277Entry (fun _ => true) (fun _ => true) "2026-02-01" "file-1" c7Entry
        (c7Db, 0, 0)).1.claims
      = c7Db.claims.map (fun r =>
          if r.payer_claim_number == c7Entry.payerClaimNumber
            then apply277Row c7Entry "2026-02-01" r else r) :=
  (c7_matching_fallback (fun _ => true) "2026-02-01" "file-1" c7Entry c7Db 0 0
      (by decide)).2.1 (Or.inr (by decide)) (by decide)

end Moonlit
